import Mathlib

/-!
Shallow embedding of the SQLi-CTF driver shim (`ctf_sql/fake_MySqldb.py`).

The module wraps a real MySQL cursor/connection and rebuilds parameterized
queries by raw textual substitution.  The embedding below translates the
pure query-construction layer (`FakeCursor._raw_value`, `FakeCursor._build_sql`)
into Lean functions, and the delegating layer (`FakeCursor.execute`,
`FakeCursor.executemany`, attribute forwarding) into functions parameterized
by the observable behaviour of the wrapped real cursor, modelled as a
function from SQL text to an affected-row count or a driver error.  The
first component of each result is the list of SQL strings actually sent to
the real cursor during the call, in order.
-/

namespace CtfSql

/-- A Python value passed as a SQL parameter: the null marker `None`, a
string, or a non-string scalar (modelled by the integers, the scalars the
challenges use; `str(v)` on an integer is its decimal form). -/
inductive Value where
  | null : Value
  | str (s : String) : Value
  | int (n : Int) : Value
deriving DecidableEq

/-- Model of `FakeCursor._raw_value`: convert a value into raw SQL text
without escaping.  `None` becomes `NULL`; everything else is `str(v)`
verbatim (a string stays exactly as it is, an integer becomes its decimal
form).  No quoting and no escaping is performed anywhere, and there is no
sanitizer hook of any kind in the source. -/
def rawValue : Value → String
  | .null => "NULL"
  | .str s => s
  | .int n => toString n

/-- Model of `len(re.findall(r'(?<!%)%s', query))` on a character list:
the number of occurrences of the two-character marker `%s` that are not
immediately preceded by `%`.  The scan moves left to right; `prev` is the
character just before the current position (`none` at the start).  A `%s`
at the current position matches unless `prev` is `%`; both a match and a
failed lookbehind consume the two characters `%s` (after a failed
lookbehind the regex engine retries at the `s`, where no match can start,
so the next possible match begins after it with `prev = s`). -/
def countUnescaped (prev : Option Char) : List Char → Nat
  | c1 :: c2 :: rest =>
    if c1 = '%' ∧ c2 = 's' then
      (if prev = some '%' then 0 else 1) + countUnescaped (some 's') rest
    else
      countUnescaped (some c1) (c2 :: rest)
  | _ => 0

/-- Model of `query.split("%s")` on a character list: the pieces of the
list around every non-overlapping, leftmost-first occurrence of the
two-character marker `%s`, escaped or not.  Note the asymmetry with
`countUnescaped`: the Python code counts only unescaped markers but splits
on all of them. -/
def splitMarker : List Char → List (List Char)
  | c1 :: c2 :: rest =>
    if c1 = '%' ∧ c2 = 's' then
      [] :: splitMarker rest
    else
      match splitMarker (c2 :: rest) with
      | p :: ps => (c1 :: p) :: ps
      | [] => [[c1]]
  | l => [l]

/-- The Python exceptions observable through the shim: `ValueError` raised
by `_build_sql` on a placeholder-count mismatch, `IndexError` for an
out-of-range list access, and an error of the real driver. -/
inductive PyError where
  | valueError (msg : String)
  | indexError
  | driverError (msg : String)
deriving DecidableEq

/-- Model of the accumulation loop of `_build_sql`:
`for i in range(placeholders): sql += parts[i] + FakeCursor._raw_value(params[i])`.
The loop runs `len(params)` times (the guard has ensured
`placeholders == len(params)`), consuming `parts` positionally; `none`
is the Python `IndexError` raised when `parts[i]` is out of range. -/
def buildLoop : List String → List Value → Option String
  | _, [] => some ""
  | part :: parts, p :: ps =>
    (buildLoop parts ps).map (fun s => part ++ rawValue p ++ s)
  | [], _ :: _ => none

/-- Model of `FakeCursor._build_sql`: count the unescaped markers; on a
count/parameter mismatch raise `ValueError` with the exact message of the
source; otherwise split the query on every marker occurrence, run the
accumulation loop over the first `placeholders` pieces, and append
`parts[-1]`, the last piece of the full split (not the piece following the
last consumed one, hence pieces in between are dropped when the split has
more pieces than `placeholders + 1`). -/
def buildSql (query : String) (params : List Value) : Except PyError String :=
  let placeholders := countUnescaped none query.data
  if placeholders = params.length then
    let parts := (splitMarker query.data).map String.mk
    match buildLoop parts params with
    | some sql => .ok (sql ++ parts.getLastD "")
    | none => .error .indexError
  else
    .error (.valueError ("placeholder count mismatch: " ++ toString placeholders
      ++ " != " ++ toString params.length))

/-- Model of `FakeCursor.execute`.  The wrapped real cursor is modelled by
its observable behaviour `realExec` (SQL text to affected-row count or
driver error).  With absent parameters the query is forwarded verbatim;
otherwise `_build_sql` renders it first, and a rendering error is raised
before anything reaches the real cursor.  The first component is the list
of SQL strings sent to the real cursor during the call. -/
def execute (realExec : String → Except PyError Int) (query : String)
    (params : Option (List Value)) : List String × Except PyError Int :=
  match params with
  | none => ([query], realExec query)
  | some ps =>
    match buildSql query ps with
    | .ok sql => ([sql], realExec sql)
    | .error e => ([], .error e)

/-- Combine the affected-row count accumulated so far with the outcome of
the remaining iterations of `executemany`: a later error discards the
count, a later success adds to it. -/
def addCount (k : Int) : Except PyError Int → Except PyError Int
  | .ok m => .ok (k + m)
  | .error e => .error e

/-- Model of `FakeCursor.executemany`: render and execute each parameter
group in order, summing the affected-row counts; the first rendering or
execution error aborts the loop, the groups already executed stay
executed, and the error is surfaced unchanged. -/
def executemany (realExec : String → Except PyError Int) (query : String) :
    List (List Value) → List String × Except PyError Int
  | [] => ([], .ok 0)
  | ps :: rest =>
    match buildSql query ps with
    | .error e => ([], .error e)
    | .ok sql =>
      match realExec sql with
      | .error e => ([sql], .error e)
      | .ok n =>
        let r := executemany realExec query rest
        (sql :: r.1, addCount n r.2)

/-- The attribute names defined locally on a `FakeCursor` object: the
class attributes (`__init__`, `__getattr__`, `_raw_value`, `_build_sql`,
`execute`, `executemany`) and the instance attribute `_cur`. -/
def fakeCursorLocalNames : List String :=
  ["__init__", "__getattr__", "_raw_value", "_build_sql",
   "execute", "executemany", "_cur"]

/-- The attribute names defined locally on a `FakeConnection` object: the
class attributes (`__init__`, `cursor`, `__getattr__`) and the instance
attribute `_conn`. -/
def fakeConnectionLocalNames : List String :=
  ["__init__", "cursor", "__getattr__", "_conn"]

/-- Model of Python attribute lookup on a shim object.  A name defined
locally (class or instance dictionary) resolves to the local definition;
for any other name Python calls `__getattr__`, whose body in both shims is
`getattr(self._real, name)`, so the access is exactly the access on the
wrapped real object, value and raised error alike (the real lookup is
modelled as `realGetattr`, which may return an attribute or raise). -/
def shimGetattr {α : Type} (localNames : List String) (localVal : String → α)
    (realGetattr : String → Except PyError α) (name : String) :
    Except PyError α :=
  if name ∈ localNames then .ok (localVal name) else realGetattr name

/-- Spec-side description of the result of the Query Builder, for
comparison with `buildSql`: the concatenation
`fragment0 ++ rendered(params0) ++ fragment1 ++ rendered(params1) ++ …`,
ending with the fragment after the last substituted marker.  Only used
with `fragments.length = params.length + 1`. -/
def specConcat : List String → List Value → String
  | [], _ => ""
  | f :: _, [] => f
  | f :: fs, p :: ps => f ++ rawValue p ++ specConcat fs ps

/-- The single-quote character, written by code point to state the quoting
behaviour the specification ascribes to the renderer. -/
def singleQuote : Char := Char.ofNat 39

/-! Helper lemmas. -/

/-- Concatenation of strings is associative (helper). -/
theorem string_append_assoc (a b c : String) : a ++ b ++ c = a ++ (b ++ c) := by
  apply String.ext
  simp [String.data_append, List.append_assoc]

/-- Splitting never produces an empty list of pieces (helper). -/
theorem splitMarker_ne_nil (l : List Char) : splitMarker l ≠ [] := by
  induction l using splitMarker.induct with
  | case1 c1 c2 rest h ih => simp [splitMarker, if_pos h]
  | case2 c1 c2 rest h p ps heq ih => simp [splitMarker, if_neg h, heq]
  | case3 c1 c2 rest h heq ih => exact absurd heq ih
  | case4 l h => simp [splitMarker]

/-- Splitting on the marker always yields strictly more pieces than there
are unescaped markers, whatever the preceding character is (helper): the
split separates on every occurrence, the count only on unescaped ones. -/
theorem countUnescaped_lt_length_splitMarker (l : List Char) :
    ∀ prev, countUnescaped prev l + 1 ≤ (splitMarker l).length := by
  induction l using splitMarker.induct with
  | case1 c1 c2 rest h ih =>
    intro prev
    simp only [countUnescaped, splitMarker, if_pos h, List.length_cons]
    have := ih (some 's')
    split <;> omega
  | case2 c1 c2 rest h p ps heq ih =>
    intro prev
    have := ih (some c1)
    rw [heq] at this
    simp only [countUnescaped, splitMarker, if_neg h, heq, List.length_cons] at this ⊢
    omega
  | case3 c1 c2 rest h heq ih => exact absurd heq (splitMarker_ne_nil _)
  | case4 l h =>
    intro prev
    cases l with
    | nil => simp [countUnescaped, splitMarker]
    | cons c t =>
      cases t with
      | nil => simp [countUnescaped, splitMarker]
      | cons c2 t2 => exact absurd rfl (h c c2 t2)

/-- The accumulation loop succeeds whenever at least as many pieces as
parameters are available (helper). -/
theorem buildLoop_isSome (ps : List Value) :
    ∀ parts : List String, ps.length ≤ parts.length →
      ∃ s, buildLoop parts ps = some s := by
  induction ps with
  | nil => intro parts h; exact ⟨"", by cases parts <;> rfl⟩
  | cons p ps ih =>
    intro parts h
    cases parts with
    | nil => simp at h
    | cons f fs =>
      obtain ⟨s, hs⟩ := ih fs (by simpa using Nat.le_of_succ_le_succ h)
      exact ⟨f ++ rawValue p ++ s, by simp [buildLoop, hs]⟩

/-- With exactly one more piece than parameters, the accumulation loop
followed by the final piece produces precisely the interleaved
concatenation of the specification (helper). -/
theorem buildLoop_spec (ps : List Value) :
    ∀ parts : List String, parts.length = ps.length + 1 →
      ∃ s, buildLoop parts ps = some s ∧
        s ++ parts.getLastD "" = specConcat parts ps := by
  induction ps with
  | nil =>
    intro parts h
    match parts, h with
    | [f], _ =>
      refine ⟨"", rfl, ?_⟩
      simp [specConcat, List.getLastD]
  | cons p ps ih =>
    intro parts h
    match parts with
    | f :: fs =>
      have hfs : fs.length = ps.length + 1 := by simpa using h
      obtain ⟨s, hs, hcat⟩ := ih fs hfs
      refine ⟨f ++ rawValue p ++ s, by simp [buildLoop, hs], ?_⟩
      have hlast : (f :: fs).getLastD "" = fs.getLastD "" := by
        cases fs with
        | nil => simp at hfs
        | cons g gs => simp [List.getLastD]
      rw [hlast, specConcat, ← hcat, string_append_assoc]

/-- Under the count guard, `buildSql` always returns a rendered string
(helper). -/
theorem buildSql_total (q : String) (ps : List Value)
    (h : countUnescaped none q.data = ps.length) :
    ∃ s, buildSql q ps = Except.ok s := by
  have hlen : ps.length ≤ ((splitMarker q.data).map String.mk).length := by
    have := countUnescaped_lt_length_splitMarker q.data none
    simp only [List.length_map]
    omega
  obtain ⟨s, hs⟩ := buildLoop_isSome ps _ hlen
  exact ⟨s ++ ((splitMarker q.data).map String.mk).getLastD "",
    by simp [buildSql, h, hs]⟩

/-- Adding a zero count leaves an outcome unchanged (helper). -/
theorem addCount_zero (r : Except PyError Int) : addCount 0 r = r := by
  cases r <;> simp [addCount]

/-- Accumulated counts compose additively (helper). -/
theorem addCount_addCount (a b : Int) (r : Except PyError Int) :
    addCount a (addCount b r) = addCount (a + b) r := by
  cases r <;> simp [addCount, add_assoc]

/-- Running `executemany` over a prefix whose every group renders and
executes successfully logs exactly the rendered statements of the prefix
and then continues with the rest of the groups (helper). -/
theorem executemany_append (realExec : String → Except PyError Int) (q : String)
    {pre : List (List Value)} {sqls : List String}
    (h1 : List.Forall₂ (fun ps sql => buildSql q ps = Except.ok sql) pre sqls) :
    ∀ {ns : List Int},
      List.Forall₂ (fun sql n => realExec sql = Except.ok n) sqls ns →
      ∀ rest, executemany realExec q (pre ++ rest) =
        (sqls ++ (executemany realExec q rest).1,
          addCount ns.sum (executemany realExec q rest).2) := by
  induction h1 with
  | nil =>
    intro ns h2 rest
    cases h2
    simp [addCount_zero]
  | cons hps h1' ih =>
    intro ns h2 rest
    cases h2 with
    | cons hn h2' =>
      have hrec := ih h2' rest
      simp [executemany, hps, hn, hrec, addCount_addCount]

/-! Claim theorems. -/

/-- Claim C1, counterexample.  The claim states that for a template with
`N` unescaped markers and `N` parameters the builder returns the
concatenation of the `N + 1` literal fragments around the unescaped
markers, interleaved with the rendered values, with no fragment dropped.
The template `a%%sb` has zero unescaped markers, so its single fragment is
the whole template; but the code splits on the escaped marker too and
keeps only the last piece, returning `b` and dropping `a%` entirely. -/
theorem buildSql_escaped_counterexample :
    buildSql "a%%sb" [] = Except.ok "b" ∧ ("b" : String) ≠ "a%%sb" :=
  ⟨rfl, by decide⟩

/-- Claim C1, amended.  For every template in which every occurrence of
the marker `%s` is unescaped (equivalently: splitting yields exactly one
more piece than the unescaped-marker count) and every parameter sequence
of matching length, `_build_sql` returns exactly the concatenation
`fragment0 ++ rendered(params0) ++ fragment1 ++ … ++ fragmentN`, in strict
left-to-right order with no fragment dropped or reordered. -/
theorem buildSql_concats (q : String) (ps : List Value)
    (hesc : (splitMarker q.data).length = countUnescaped none q.data + 1)
    (hlen : countUnescaped none q.data = ps.length) :
    buildSql q ps =
      Except.ok (specConcat ((splitMarker q.data).map String.mk) ps) := by
  have hplen : ((splitMarker q.data).map String.mk).length = ps.length + 1 := by
    simp only [List.length_map]
    omega
  obtain ⟨s, hs, hcat⟩ := buildLoop_spec ps _ hplen
  simp [buildSql, hlen, hs, ← hcat]

/-- Claim C1, witness: the template `a%sb%sc` with parameters
`[None, 2]` renders to `aNULLb2c`. -/
theorem buildSql_concats_witness :
    buildSql "a%sb%sc" [Value.null, Value.int 2] = Except.ok "aNULLb2c" := by
  have h := buildSql_concats "a%sb%sc" [Value.null, Value.int 2]
    (by decide) (by decide)
  exact h

/-- Claim C2.  The first half of the claim holds: an escaped marker is
never counted as a substitution site (`100%%s` counts zero placeholders).
The second half is violated by the code: the escaped marker does not
appear as literal text in the rendered output.  On `100%%s` with no
parameters the code returns the empty string, because `split("%s")` also
splits at the escaped marker and the loop plus `parts[-1]` keep only the
last piece, dropping `100%` and the marker; in particular `%%s` is not a
substring of the output. -/
theorem buildSql_escaped_dropped :
    countUnescaped none ("100%%s").data = 0 ∧
    buildSql "100%%s" [] = Except.ok "" ∧
    ¬ ("%%s" : String).data <:+: ("" : String).data :=
  ⟨rfl, rfl, by decide⟩

/-- Claim C3, counterexample.  The claim states that with no sanitizer
configured a string value renders wrapped in single quotes.  The code has
no sanitizer at all and `_raw_value` returns `str(v)` verbatim: the string
`OBrien` renders as `OBrien`, not as the quoted form. -/
theorem rawValue_unquoted_counterexample :
    rawValue (Value.str "OBrien") = "OBrien" ∧
    rawValue (Value.str "OBrien") ≠
      String.singleton singleQuote ++ "OBrien" ++ String.singleton singleQuote :=
  ⟨rfl, by decide⟩

/-- Claim C3, amended.  Every string parameter value is rendered verbatim
by `_raw_value`: no surrounding quotes are added and no internal escaping
is performed (the break-out surface is even wider than the spec states,
since the value is spliced bare into the SQL text). -/
theorem rawValue_string_verbatim (s : String) : rawValue (Value.str s) = s := rfl

/-- Claim C4.  For every template and every parameter sequence whose
length differs from the unescaped-marker count, `execute` fails with the
parameter-count-mismatch `ValueError` carrying the exact message of the
source, and the list of SQL statements sent to the real cursor is empty:
the real execute is never invoked on this path, and no truncation or
padding of parameters occurs. -/
theorem execute_mismatch (realExec : String → Except PyError Int)
    (q : String) (ps : List Value)
    (h : countUnescaped none q.data ≠ ps.length) :
    execute realExec q (some ps) =
      ([], Except.error (PyError.valueError ("placeholder count mismatch: "
        ++ toString (countUnescaped none q.data) ++ " != "
        ++ toString ps.length))) := by
  simp [execute, buildSql, h]

/-- Claim C4, witness: `SELECT 1` has zero placeholders, so one parameter
is a mismatch; the error is raised and nothing reaches the real cursor. -/
theorem execute_mismatch_witness :
    execute (fun _ => Except.ok 1) "SELECT 1" (some [Value.int 7]) =
      ([], Except.error (PyError.valueError "placeholder count mismatch: 0 != 1")) :=
  execute_mismatch (fun _ => Except.ok 1) "SELECT 1" [Value.int 7] (by decide)

/-- Claim C6.  The renderer maps the null marker to the literal text
`NULL` and every non-string scalar to its plain unquoted string form
(there is no sanitizer hook in the code, so nothing can interfere with
either mapping). -/
theorem rawValue_null_and_scalars :
    rawValue Value.null = "NULL" ∧ ∀ n : Int, rawValue (Value.int n) = toString n :=
  ⟨rfl, fun _ => rfl⟩

/-- Claim C7.  With absent parameters `execute` forwards the query string
to the real cursor completely unchanged and returns the real result
unchanged; with parameters present it forwards exactly the rendered SQL
and again returns the real result unchanged (whether an affected-row
count or a driver error). -/
theorem execute_delegation (realExec : String → Except PyError Int) (q : String) :
    execute realExec q none = ([q], realExec q) ∧
    ∀ ps sql, buildSql q ps = Except.ok sql →
      execute realExec q (some ps) = ([sql], realExec sql) := by
  refine ⟨rfl, ?_⟩
  intro ps sql h
  simp [execute, h]

/-- Claim C7, witness: `SELECT %s` with parameter `5` sends `SELECT 5` to
the real cursor and returns its affected-row count unchanged. -/
theorem execute_delegation_witness :
    execute (fun _ => Except.ok 2) "SELECT %s" (some [Value.int 5]) =
      (["SELECT 5"], Except.ok 2) :=
  (execute_delegation (fun _ => Except.ok 2) "SELECT %s").2 [Value.int 5] "SELECT 5" rfl

/-- Claim C8.  When every group of a sequence renders and executes
successfully, `executemany` sends the rendered statements in sequence
order and returns the sum of the affected-row counts.  When a later group
fails, either at rendering or at execution, the groups before it have
already been executed against the real cursor (they are in the sent log),
no later group is rendered or executed, and the failing group's error is
surfaced unchanged. -/
theorem executemany_prefix_spec (realExec : String → Except PyError Int) (q : String)
    (pre : List (List Value)) (sqls : List String) (ns : List Int)
    (h1 : List.Forall₂ (fun ps sql => buildSql q ps = Except.ok sql) pre sqls)
    (h2 : List.Forall₂ (fun sql n => realExec sql = Except.ok n) sqls ns) :
    executemany realExec q pre = (sqls, Except.ok ns.sum) ∧
    (∀ bad post e, buildSql q bad = Except.error e →
      executemany realExec q (pre ++ bad :: post) = (sqls, Except.error e)) ∧
    (∀ bad post sqlb e, buildSql q bad = Except.ok sqlb →
      realExec sqlb = Except.error e →
      executemany realExec q (pre ++ bad :: post) =
        (sqls ++ [sqlb], Except.error e)) := by
  refine ⟨?_, ?_, ?_⟩
  · have h := executemany_append realExec q h1 h2 []
    simpa [executemany, addCount] using h
  · intro bad post e hbad
    have h := executemany_append realExec q h1 h2 (bad :: post)
    rw [h]
    simp [executemany, hbad, addCount]
  · intro bad post sqlb e hbad hexec
    have h := executemany_append realExec q h1 h2 (bad :: post)
    rw [h]
    simp [executemany, hbad, hexec, addCount]

/-- Claim C8, witness: four groups where the third fails to render (zero
parameters against one placeholder).  The first two groups are executed
against the real cursor, the fourth is never reached, and the third
group's error is surfaced. -/
theorem executemany_prefix_spec_witness :
    executemany (fun _ => Except.ok 1) "INSERT %s"
      [[Value.int 1], [Value.int 2], [], [Value.int 3]] =
      (["INSERT 1", "INSERT 2"],
        Except.error (PyError.valueError "placeholder count mismatch: 1 != 0")) := by
  have h := (executemany_prefix_spec (fun _ => Except.ok 1) "INSERT %s"
      [[Value.int 1], [Value.int 2]] ["INSERT 1", "INSERT 2"] [1, 1]
      (List.Forall₂.cons rfl (List.Forall₂.cons rfl List.Forall₂.nil))
      (List.Forall₂.cons rfl (List.Forall₂.cons rfl List.Forall₂.nil))).2.1
      [] [[Value.int 3]] _ rfl
  exact h

/-- Claim C9.  For every attribute name not defined locally on the cursor
shim or the connection shim, the lookup on the shim is exactly the lookup
on the wrapped real object: same value and same raised error, whatever the
real object does, so the shim never shadows a capability it has not
deliberately overridden. -/
theorem shim_forwards {α : Type} (name : String)
    (h1 : name ∉ fakeCursorLocalNames) (h2 : name ∉ fakeConnectionLocalNames)
    (localCur : String → α) (realCur : String → Except PyError α)
    (localConn : String → α) (realConn : String → Except PyError α) :
    shimGetattr fakeCursorLocalNames localCur realCur name = realCur name ∧
    shimGetattr fakeConnectionLocalNames localConn realConn name = realConn name := by
  constructor <;> simp [shimGetattr, h1, h2]

/-- Claim C9, witness: `fetchone` is defined on neither shim, so both
lookups forward to the wrapped real object. -/
theorem shim_forwards_witness :
    shimGetattr fakeCursorLocalNames (fun _ => (0 : Int))
      (fun _ => Except.ok (5 : Int)) "fetchone" = Except.ok 5 ∧
    shimGetattr fakeConnectionLocalNames (fun _ => (0 : Int))
      (fun _ => Except.ok (5 : Int)) "fetchone" = Except.ok 5 :=
  shim_forwards "fetchone" (by decide) (by decide) _ _ _ _

/-- Claim C10.  Splitting the template always yields at least one more
piece than there are unescaped markers; hence when the parameter count
matches the unescaped-marker count, every piece and parameter index the
concatenation loop accesses is in range and `_build_sql` returns a
rendered string, with no out-of-bounds failure reachable. -/
theorem buildSql_total_inbounds (q : String) (ps : List Value)
    (h : countUnescaped none q.data = ps.length) :
    countUnescaped none q.data + 1 ≤ (splitMarker q.data).length ∧
    ∃ s, buildSql q ps = Except.ok s :=
  ⟨countUnescaped_lt_length_splitMarker q.data none, buildSql_total q ps h⟩

/-- Claim C10, witness: `a%sb` with one parameter renders successfully. -/
theorem buildSql_total_inbounds_witness :
    countUnescaped none ("a%sb").data + 1 ≤ (splitMarker ("a%sb").data).length ∧
    ∃ s, buildSql "a%sb" [Value.null] = Except.ok s :=
  buildSql_total_inbounds "a%sb" [Value.null] (by decide)

end CtfSql
